/-
Verification of the `powermgr` module of munki
(src/code/client/munkilib/powermgr.py).

The module wraps IOKit power-management calls.  We embed it shallowly:
the host environment (what IOKit and the collaborating modules would
report) is a `Host` record, and each Python function becomes a Lean
function from the host state to its result together with an explicit
trace of the log entries it emits (`display.display_info` /
`display.display_error`) and the IOKit calls it makes
(`IOPMAssertionCreateWithName` / `IOPMAssertionRelease`).
-/
import Mathlib

namespace Powermgr

/-- A log entry emitted via the `display` module: either
`display.display_info` or `display.display_error`. -/
inductive LogEntry where
  | info (msg : String)
  | error (msg : String)
deriving DecidableEq, Repr

/-- Whether a log entry is an error entry. -/
def LogEntry.isError : LogEntry → Bool
  | .error _ => true
  | .info _ => false

/-- Whether a log entry is an informational entry. -/
def LogEntry.isInfo : LogEntry → Bool
  | .error _ => false
  | .info _ => true

/-- An IOKit assertion call made by the module:
`IOPMAssertionCreateWithName(type, level, reason, None)` or
`IOPMAssertionRelease(id)`. -/
inductive HostCall where
  | assertionCreate (assertionType : String) (level : Nat) (reason : String)
  | assertionRelease (id : Nat)
deriving DecidableEq, Repr

/-- Whether a host call is an `IOPMAssertionRelease`. -/
def HostCall.isRelease : HostCall → Bool
  | .assertionRelease _ => true
  | .assertionCreate _ _ _ => false

/-- A power-source description dictionary as returned by
`IOPSGetPowerSourceDescription`: we model the two keys the module
reads, `Type` and `Current Capacity`; either may be absent from the
dictionary, hence the `Option` fields. -/
structure PowerSourceDesc where
  psType : Option String
  currentCapacity : Option Int
deriving DecidableEq, Repr

/-- The host state: everything IOKit and the collaborating modules
(`prefs`, `constants`/`os.path`, `osutils`) report to `powermgr`.
`createErrcode` and `createAssertID` are what
`IOPMAssertionCreateWithName` returns for the attempt;
`suspendDisplaySleepPref` is the truthiness of the
SuspendDisplaySleepDuringBootstrap preference;
`bootstrapFlagExists` is whether the
CHECKANDINSTALLATSTARTUPFLAG marker file exists;
`consoleUser` is what osutils.getconsoleuser returns. -/
structure Host where
  createErrcode : Int
  createAssertID : Nat
  suspendDisplaySleepPref : Bool
  bootstrapFlagExists : Bool
  consoleUser : String
deriving DecidableEq, Repr

/-- `onACPower()`: compares the providing power source string from
`IOPSGetProvidingPowerSourceType` against the literal. -/
def onACPower (power_source : String) : Bool :=
  power_source == "AC Power"

/-- `onBatteryPower()`: compares the providing power source string from
`IOPSGetProvidingPowerSourceType` against the literal. -/
def onBatteryPower (power_source : String) : Bool :=
  power_source == "Battery Power"

/-- `getBatteryPercentage()`: walks the power-source list and, at the
first descriptor whose `Type` key equals InternalBattery, returns its
`Current Capacity` value with a default of 0; returns 0 when no
descriptor matches. -/
def getBatteryPercentage : List PowerSourceDesc → Int
  | [] => 0
  | d :: rest =>
    if d.psType = some "InternalBattery" then d.currentCapacity.getD 0
    else getBatteryPercentage rest

/-- `hasInternalBattery()`: walks the power-source list and returns
true at the first descriptor whose `Type` key equals InternalBattery,
else false. -/
def hasInternalBattery : List PowerSourceDesc → Bool
  | [] => false
  | d :: rest =>
    if d.psType = some "InternalBattery" then true
    else hasInternalBattery rest

/-- Spec-side description of `getBatteryPercentage`, written from the
spec sentence: the `Current Capacity` of the first descriptor whose
`Type` equals InternalBattery (0 when that key is absent), and 0 when
the list is empty or holds no such descriptor. -/
def batteryPercentageSpec (l : List PowerSourceDesc) : Int :=
  match l.find? (fun d => d.psType == some "InternalBattery") with
  | some d => d.currentCapacity.getD 0
  | none => 0

/-- The `prevent_display_sleep` condition computed at the top of
`assertSleepPrevention`. -/
def preventDisplaySleep (host : Host) : Bool :=
  host.suspendDisplaySleepPref &&
  host.bootstrapFlagExists &&
  (host.consoleUser == "loginwindow")

/-- The explanatory info entry logged when `prevent_display_sleep`. -/
def displaySleepMsg : String :=
  "Display sleep suspended due to SuspendDisplaySleepDuringBootstrap preference enabled, bootstrap flag set, and currently at loginwindow."

/-- The reason string actually used by `assertSleepPrevention`: the
`if not reason:` test in the source replaces an absent reason (and,
by Python truthiness, an empty one) with the default string. -/
def effectiveReason (reason : Option String) : String :=
  match reason with
  | none => "Munki is installing software"
  | some r => if r = "" then "Munki is installing software" else r

/-- Result of `assertSleepPrevention`: the returned value
(`None` or the assertion id), the log entries emitted in order, and the
IOKit calls made in order. -/
structure AssertResult where
  result : Option Nat
  logs : List LogEntry
  calls : List HostCall
deriving DecidableEq, Repr

/-- `assertSleepPrevention(reason=None)`.  The caller passing no
argument is `reason = none`; Python `if not reason:` also treats the
empty string as absent, so both map to the default reason string. -/
def assertSleepPrevention (host : Host) (reason : Option String := none) :
    AssertResult :=
  let prevent_display_sleep := preventDisplaySleep host
  let log1 : List LogEntry :=
    if prevent_display_sleep then [LogEntry.info displaySleepMsg] else []
  let kIOPMAssertionType :=
    if prevent_display_sleep then "NoDisplaySleepAssertion"
    else "NoIdleSleepAssertion"
  let kIOPMAssertionLevelOn := 255
  let reasonStr := effectiveReason reason
  let log2 := LogEntry.info
    ("Preventing " ++ (if prevent_display_sleep then "display" else "idle") ++
     " sleep due to: " ++ reasonStr)
  let call := HostCall.assertionCreate kIOPMAssertionType kIOPMAssertionLevelOn
    reasonStr
  if host.createErrcode ≠ 0 then
    { result := none
      logs := log1 ++ [log2, LogEntry.error "Failed to create sleep prevention assertion."]
      calls := [call] }
  else
    { result := some host.createAssertID
      logs := log1 ++ [log2]
      calls := [call] }

/-- Result of `removeSleepPreventionAssertion`: the log entries emitted
and the IOKit calls made. -/
structure ReleaseResult where
  logs : List LogEntry
  calls : List HostCall
deriving DecidableEq, Repr

/-- `removeSleepPreventionAssertion(assertion_id)`.  Python
`if assertion_id:` is false for `None` and for the integer 0. -/
def removeSleepPreventionAssertion (assertion_id : Option Nat) :
    ReleaseResult :=
  match assertion_id with
  | none => { logs := [], calls := [] }
  | some n =>
    if n ≠ 0 then
      { logs := [LogEntry.info "Allowing idle sleep"]
        calls := [HostCall.assertionRelease n] }
    else { logs := [], calls := [] }

/-- The full lifecycle of a `Caffeinator` object: `__init__` calls
`assertSleepPrevention(reason)` and stores the id; `__del__` calls
`removeSleepPreventionAssertion` on the stored id.  We collect the
combined log and call traces. -/
def caffeinatorLifecycle (host : Host) (reason : Option String := none) :
    List LogEntry × List HostCall :=
  let a := assertSleepPrevention host reason
  let r := removeSleepPreventionAssertion a.result
  (a.logs ++ r.logs, a.calls ++ r.calls)

/-- Number of error log entries in a trace. -/
def countErrors (logs : List LogEntry) : Nat :=
  (logs.filter LogEntry.isError).length

/-- Number of informational log entries in a trace. -/
def countInfos (logs : List LogEntry) : Nat :=
  (logs.filter LogEntry.isInfo).length

/-- The explanatory display-sleep entry differs from any string whose
first character is P, in particular from every Preventing-sleep
message, whatever the reason suffix. -/
theorem displayMsg_ne_of_head (x : String) (hx : x.data.head? = some 'P') :
    displaySleepMsg ≠ x := by
  intro h
  have h2 := congrArg (fun s => s.data.head?) h
  simp only at h2
  have h4 : displaySleepMsg.data.head? = some 'D' := rfl
  rw [h4, hx] at h2
  exact absurd h2 (by decide)

/-- C4: `removeSleepPreventionAssertion(None)` is a no-op: it makes no
IOKit call and emits no log entry, so callers may always call it
unconditionally after a possibly-failed acquire. -/
theorem removeSleepPreventionAssertion_none :
    removeSleepPreventionAssertion none = { logs := [], calls := [] } := rfl

/-- C6: `getBatteryPercentage` returns the `Current Capacity` value of
the first descriptor whose `Type` equals InternalBattery (0 when that
descriptor lacks the capacity key), and 0 when the list is empty or
holds no such descriptor. -/
theorem getBatteryPercentage_spec (l : List PowerSourceDesc) :
    getBatteryPercentage l = batteryPercentageSpec l := by
  induction l with
  | nil => rfl
  | cons d rest ih =>
    by_cases h : d.psType = some "InternalBattery"
    · simp [getBatteryPercentage, batteryPercentageSpec, List.find?, h]
    · have hb : (d.psType == some "InternalBattery") = false := by
        simpa using h
      simp [getBatteryPercentage, batteryPercentageSpec, List.find?, h, hb, ih]

/-- C7: `onACPower` returns true and `onBatteryPower` returns false
exactly when the providing-power-source string equals AC Power, the
reverse holds exactly when it equals Battery Power, and any other
string makes both functions return false. -/
theorem onACPower_onBatteryPower_spec (s : String) :
    (onACPower s = true ∧ onBatteryPower s = false ↔ s = "AC Power") ∧
    (onBatteryPower s = true ∧ onACPower s = false ↔ s = "Battery Power") ∧
    (¬(s = "AC Power" ∨ s = "Battery Power") →
      onACPower s = false ∧ onBatteryPower s = false) := by
  simp only [onACPower, onBatteryPower, beq_iff_eq, beq_eq_false_iff_ne, ne_eq]
  refine ⟨⟨fun h => h.1, fun h => ?_⟩, ⟨fun h => h.1, fun h => ?_⟩, fun h => ?_⟩
  · subst h; exact ⟨rfl, by decide⟩
  · subst h; exact ⟨rfl, by decide⟩
  · push_neg at h
    exact ⟨h.1, h.2⟩

/-- C10: whenever `hasInternalBattery` returns false on a power-source
list, `getBatteryPercentage` returns 0 on that same list: both walk
the list testing the same predicate in the same order. -/
theorem hasInternalBattery_false_battery_zero (l : List PowerSourceDesc)
    (h : hasInternalBattery l = false) : getBatteryPercentage l = 0 := by
  induction l with
  | nil => rfl
  | cons d rest ih =>
    simp only [hasInternalBattery] at h
    simp only [getBatteryPercentage]
    by_cases hd : d.psType = some "InternalBattery"
    · simp [hd] at h
    · simp only [hd, if_false] at h ⊢
      exact ih h

/-- Witness for C10 at a concrete list holding one non-battery
descriptor. -/
theorem hasInternalBattery_false_battery_zero_witness :
    hasInternalBattery [⟨some "UPS", some 50⟩] = false ∧
    getBatteryPercentage [⟨some "UPS", some 50⟩] = 0 :=
  ⟨by decide, hasInternalBattery_false_battery_zero [⟨some "UPS", some 50⟩] (by decide)⟩

/-- C1: whenever the host returns a non-zero error code from assertion
creation, `assertSleepPrevention` returns `none`, emits exactly one
error log entry, and never calls the release function; the embedding
is a total function, so no exception propagates. -/
theorem assertSleepPrevention_failure (host : Host) (reason : Option String)
    (h : host.createErrcode ≠ 0) :
    (assertSleepPrevention host reason).result = none ∧
    countErrors (assertSleepPrevention host reason).logs = 1 ∧
    (assertSleepPrevention host reason).calls.filter HostCall.isRelease = [] := by
  by_cases hp : preventDisplaySleep host = true <;>
    simp [assertSleepPrevention, hp, h, countErrors, LogEntry.isError,
      HostCall.isRelease, List.filter]

/-- Witness for C1 at a concrete failing host. -/
theorem assertSleepPrevention_failure_witness :
    (assertSleepPrevention
      { createErrcode := -536870203, createAssertID := 0,
        suspendDisplaySleepPref := false, bootstrapFlagExists := false,
        consoleUser := "root" } none).result = none ∧
    countErrors (assertSleepPrevention
      { createErrcode := -536870203, createAssertID := 0,
        suspendDisplaySleepPref := false, bootstrapFlagExists := false,
        consoleUser := "root" } none).logs = 1 ∧
    (assertSleepPrevention
      { createErrcode := -536870203, createAssertID := 0,
        suspendDisplaySleepPref := false, bootstrapFlagExists := false,
        consoleUser := "root" } none).calls.filter HostCall.isRelease = [] :=
  assertSleepPrevention_failure _ none (by decide)

/-- C2: `assertSleepPrevention` requests the display-sleep assertion
type, with the explanatory info entry first in the log, exactly when
the preference flag is set, the bootstrap marker file exists, and the
console user is loginwindow; when any of the three fails it requests
the idle-sleep type and the explanatory entry appears nowhere in the
log. -/
theorem assertSleepPrevention_choice (host : Host) (reason : Option String) :
    (preventDisplaySleep host = true ↔
      host.suspendDisplaySleepPref = true ∧ host.bootstrapFlagExists = true ∧
      host.consoleUser = "loginwindow") ∧
    (assertSleepPrevention host reason).calls =
      [HostCall.assertionCreate
        (if preventDisplaySleep host then "NoDisplaySleepAssertion"
         else "NoIdleSleepAssertion") 255 (effectiveReason reason)] ∧
    ((assertSleepPrevention host reason).logs.head? =
        some (LogEntry.info displaySleepMsg) ↔ preventDisplaySleep host = true) ∧
    (LogEntry.info displaySleepMsg ∈ (assertSleepPrevention host reason).logs ↔
      preventDisplaySleep host = true) := by
  refine ⟨by simp [preventDisplaySleep, and_assoc], ?_, ?_, ?_⟩ <;>
  by_cases hp : preventDisplaySleep host = true <;>
  by_cases he : host.createErrcode = 0 <;>
  simp [assertSleepPrevention, hp, he] <;>
  first
    | exact displayMsg_ne_of_head
        ("Preventing idle sleep due to: " ++ effectiveReason reason) rfl
    | exact fun hcontra => displayMsg_ne_of_head
        ("Preventing idle sleep due to: " ++ effectiveReason reason) rfl hcontra.symm

/-- C3 counterexample: at a success state satisfying the display-sleep
conditions two informational entries precede the return, not one; and
at a success state whose returned id is 0 a subsequent release makes
no host call rather than one. -/
theorem assertSleepPrevention_success_cex :
    countInfos (assertSleepPrevention
      { createErrcode := 0, createAssertID := 1, suspendDisplaySleepPref := true,
        bootstrapFlagExists := true, consoleUser := "loginwindow" } none).logs = 2 ∧
    (removeSleepPreventionAssertion (assertSleepPrevention
      { createErrcode := 0, createAssertID := 0, suspendDisplaySleepPref := false,
        bootstrapFlagExists := false, consoleUser := "root" } none).result).calls
      = [] := by
  exact ⟨rfl, rfl⟩

/-- C3 amended: on success `assertSleepPrevention` returns the id the
host produced, preceded by exactly one informational entry when the
display-sleep conditions do not all hold and exactly two when they do
(and no error entry); a subsequent release on that id issues exactly
one host release call and one informational entry when the id is
non-zero, and makes no call and emits nothing when the id is 0. -/
theorem assertSleepPrevention_success (host : Host) (reason : Option String)
    (h : host.createErrcode = 0) :
    (assertSleepPrevention host reason).result = some host.createAssertID ∧
    countInfos (assertSleepPrevention host reason).logs =
      (if preventDisplaySleep host then 2 else 1) ∧
    countErrors (assertSleepPrevention host reason).logs = 0 ∧
    removeSleepPreventionAssertion (assertSleepPrevention host reason).result =
      (if host.createAssertID = 0 then { logs := [], calls := [] }
       else { logs := [LogEntry.info "Allowing idle sleep"],
              calls := [HostCall.assertionRelease host.createAssertID] }) := by
  by_cases hp : preventDisplaySleep host = true <;>
  by_cases hz : host.createAssertID = 0 <;>
  simp [assertSleepPrevention, removeSleepPreventionAssertion, hp, hz, h,
    countInfos, countErrors, LogEntry.isInfo, LogEntry.isError, List.filter]

/-- Witness for C3 (amended) at a concrete succeeding host. -/
theorem assertSleepPrevention_success_witness :
    (assertSleepPrevention
      { createErrcode := 0, createAssertID := 57, suspendDisplaySleepPref := false,
        bootstrapFlagExists := true, consoleUser := "loginwindow" } none).result =
      some 57 ∧
    countInfos (assertSleepPrevention
      { createErrcode := 0, createAssertID := 57, suspendDisplaySleepPref := false,
        bootstrapFlagExists := true, consoleUser := "loginwindow" } none).logs =
      (if preventDisplaySleep
        { createErrcode := 0, createAssertID := 57, suspendDisplaySleepPref := false,
          bootstrapFlagExists := true, consoleUser := "loginwindow" } then 2 else 1) ∧
    countErrors (assertSleepPrevention
      { createErrcode := 0, createAssertID := 57, suspendDisplaySleepPref := false,
        bootstrapFlagExists := true, consoleUser := "loginwindow" } none).logs = 0 ∧
    removeSleepPreventionAssertion ((assertSleepPrevention
      { createErrcode := 0, createAssertID := 57, suspendDisplaySleepPref := false,
        bootstrapFlagExists := true, consoleUser := "loginwindow" } none).result) =
      (if (57 : Nat) = 0 then { logs := [], calls := [] }
       else { logs := [LogEntry.info "Allowing idle sleep"],
              calls := [HostCall.assertionRelease 57] }) :=
  assertSleepPrevention_success _ none rfl

/-- C5: a `Caffeinator` whose underlying create call fails is built
without outward failure (the lifecycle is a total function), performs
zero host release calls, and yields exactly one error log entry
overall. -/
theorem caffeinator_failure (host : Host) (reason : Option String)
    (h : host.createErrcode ≠ 0) :
    (caffeinatorLifecycle host reason).2.filter HostCall.isRelease = [] ∧
    countErrors (caffeinatorLifecycle host reason).1 = 1 := by
  by_cases hp : preventDisplaySleep host = true <;>
  simp [caffeinatorLifecycle, assertSleepPrevention,
    removeSleepPreventionAssertion, hp, h, countErrors, LogEntry.isError,
    HostCall.isRelease, List.filter]

/-- Witness for C5 at a concrete failing host. -/
theorem caffeinator_failure_witness :
    (caffeinatorLifecycle
      { createErrcode := 1, createAssertID := 3, suspendDisplaySleepPref := true,
        bootstrapFlagExists := true, consoleUser := "loginwindow" } none).2.filter
      HostCall.isRelease = [] ∧
    countErrors (caffeinatorLifecycle
      { createErrcode := 1, createAssertID := 3, suspendDisplaySleepPref := true,
        bootstrapFlagExists := true, consoleUser := "loginwindow" } none).1 = 1 :=
  caffeinator_failure _ none (by decide)

/-- C8 counterexample: the default reason attached to the host request
is the string Munki is installing software, not the string software is
installing that the claim names. -/
theorem default_reason_cex :
    effectiveReason none = "Munki is installing software" ∧
    (effectiveReason none == "software is installing") = false ∧
    (assertSleepPrevention
      { createErrcode := 0, createAssertID := 1, suspendDisplaySleepPref := false,
        bootstrapFlagExists := false, consoleUser := "root" } none).calls =
      [HostCall.assertionCreate "NoIdleSleepAssertion" 255
        "Munki is installing software"] :=
  ⟨rfl, by decide, rfl⟩

/-- C8 amended: when the caller supplies no reason argument,
`assertSleepPrevention` attaches the fixed default reason string Munki
is installing software to the host assertion request. -/
theorem assertSleepPrevention_default_reason (host : Host) :
    (assertSleepPrevention host none).calls =
      [HostCall.assertionCreate
        (if preventDisplaySleep host then "NoDisplaySleepAssertion"
         else "NoIdleSleepAssertion") 255 "Munki is installing software"] := by
  by_cases hp : preventDisplaySleep host = true <;>
  by_cases he : host.createErrcode = 0 <;>
  simp [assertSleepPrevention, effectiveReason, hp, he]

/-- C9: `removeSleepPreventionAssertion` treats the integer id 0 like
the absent sentinel: on `some 0` it makes no host call and emits no
log entry, so an assertion the host created with id 0 is never
released by this module, also when a `Caffeinator` goes out of
scope. -/
theorem removeSleepPreventionAssertion_zero (host : Host) (reason : Option String)
    (h : host.createAssertID = 0) :
    removeSleepPreventionAssertion (some 0) = removeSleepPreventionAssertion none ∧
    (removeSleepPreventionAssertion (some 0)).calls = [] ∧
    (removeSleepPreventionAssertion (some 0)).logs = [] ∧
    (caffeinatorLifecycle host reason).2.filter HostCall.isRelease = [] ∧
    (caffeinatorLifecycle host reason).1 = (assertSleepPrevention host reason).logs := by
  by_cases hp : preventDisplaySleep host = true <;>
  by_cases he : host.createErrcode = 0 <;>
  simp [caffeinatorLifecycle, assertSleepPrevention,
    removeSleepPreventionAssertion, hp, he, h, HostCall.isRelease, List.filter]

/-- Witness for C9 at a concrete host whose created id is 0. -/
theorem removeSleepPreventionAssertion_zero_witness :
    removeSleepPreventionAssertion (some 0) = removeSleepPreventionAssertion none ∧
    (removeSleepPreventionAssertion (some 0)).calls = [] ∧
    (removeSleepPreventionAssertion (some 0)).logs = [] ∧
    (caffeinatorLifecycle
      { createErrcode := 0, createAssertID := 0, suspendDisplaySleepPref := false,
        bootstrapFlagExists := false, consoleUser := "alice" } none).2.filter
      HostCall.isRelease = [] ∧
    (caffeinatorLifecycle
      { createErrcode := 0, createAssertID := 0, suspendDisplaySleepPref := false,
        bootstrapFlagExists := false, consoleUser := "alice" } none).1 =
      (assertSleepPrevention
        { createErrcode := 0, createAssertID := 0, suspendDisplaySleepPref := false,
          bootstrapFlagExists := false, consoleUser := "alice" } none).logs :=
  removeSleepPreventionAssertion_zero _ none rfl

end Powermgr
